import Mathlib

/-!
Verification of the outcome-taxonomy and typed-codec layer of an Ethereum
execution engine, embedded shallowly from the Rust sources
`crates/vm/levm/src/vm_result.rs` and `crates/storage/src/rlp.rs`.

Machine bytes are `Fin 256`; byte buffers are lists of bytes.  A Rust
function that can `panic!`/`unwrap` is embedded as returning
`Except ProcessAbort _`, where the `error` branch marks process
termination, so that panicking and returning a recoverable error are
distinguishable in statements.
-/

namespace EthRust

/-- A machine byte (`u8`). -/
abbrev Byte := Fin 256

/-- A byte buffer (`Vec<u8>` / `Bytes` / `&[u8]`). -/
abbrev Bytes := List Byte

/-- Process termination by a Rust panic (`panic!`, `unwrap` on a failed
result).  Carried on the `error` side of `Except` for embedded functions
that can abort the process. -/
inductive ProcessAbort where
  | abort : String → ProcessAbort
  deriving DecidableEq

/-- Rust's `Option::unwrap` / `Result::unwrap`: returns the payload or
terminates the process. -/
def unwrapResult {T : Type} : Option T → Except ProcessAbort T
  | some x => Except.ok x
  | none => Except.error (ProcessAbort.abort "called unwrap on a failed decode")

/-- Modelled from the spec: `primitives::Address` (outside the provided
sources) is a 160-bit account address. -/
abbrev Address := Fin (2 ^ 160)

/-- Modelled from the spec: `call_frame::Log` (outside the provided
sources); the spec treats log entries as opaque records emitted during
execution, so the model keeps an abstract byte payload. -/
structure Log where
  payload : Bytes
  deriving DecidableEq

/-- `VMError` from `vm_result.rs`: errors that halt the program. -/
inductive VMError where
  | StackUnderflow
  | StackOverflow
  | InvalidJump
  | OpcodeNotAllowedInStaticContext
  | OpcodeNotFound
  | InvalidBytecode
  | OutOfGas
  | VeryLargeNumber
  | OverflowInArithmeticOp
  | FatalError
  | InvalidTransaction
  deriving DecidableEq

/-- `SuccessReason` from `vm_result.rs`: reason a transaction successfully
completed. -/
inductive SuccessReason where
  | Stop
  | Return
  | SelfDestruct
  | EofReturnContract
  deriving DecidableEq

/-- `Output` from `vm_result.rs`: output of a transaction execution. -/
inductive Output where
  | Call : Bytes → Output
  | Create : Bytes → Option Address → Output
  deriving DecidableEq

/-- `Output::into_data`: returns the output data of the execution output
(consuming). -/
def Output.into_data : Output → Bytes
  | Output.Call d => d
  | Output.Create d _ => d

/-- `Output::data`: returns the output data of the execution output. -/
def Output.data : Output → Bytes
  | Output.Call d => d
  | Output.Create d _ => d

/-- `Output::address`: returns the created address, if any. -/
def Output.address : Output → Option Address
  | Output.Call _ => none
  | Output.Create _ a => a

/-- `ExecutionResult` from `vm_result.rs`: result of a transaction
execution.  Gas counters are `u64` in the source; no arithmetic is
performed on them here, so they are carried as `Nat`. -/
inductive ExecutionResult where
  | Success (reason : SuccessReason) (gas_used : Nat) (gas_refunded : Nat)
      (logs : List Log) (output : Output) (return_data : Bytes)
  | Revert (reason : VMError) (gas_used : Nat) (output : Bytes)
  | Halt (reason : VMError) (gas_used : Nat)
  deriving DecidableEq

/-- `ExecutionResult::is_success`. -/
def ExecutionResult.is_success : ExecutionResult → Bool
  | ExecutionResult.Success _ _ _ _ _ _ => true
  | _ => false

/-- `ExecutionResult::is_revert`. -/
def ExecutionResult.is_revert : ExecutionResult → Bool
  | ExecutionResult.Revert _ _ _ => true
  | _ => false

/-- `ExecutionResult::is_halt`. -/
def ExecutionResult.is_halt : ExecutionResult → Bool
  | ExecutionResult.Halt _ _ => true
  | _ => false

/-- `ExecutionResult::output`: the output data of the execution; `None`
if halted, and the non-empty filter is applied via `and_then`. -/
def ExecutionResult.output (r : ExecutionResult) : Option Bytes :=
  (match r with
    | ExecutionResult.Success _ _ _ _ o _ => some o.data
    | ExecutionResult.Revert _ _ o => some o
    | ExecutionResult.Halt _ _ => none).bind
    (fun d => if d.isEmpty then none else some d)

/-- `ExecutionResult::into_output`: consuming variant; note the source
applies no emptiness filter here. -/
def ExecutionResult.into_output : ExecutionResult → Option Bytes
  | ExecutionResult.Success _ _ _ _ o _ => some o.into_data
  | ExecutionResult.Revert _ _ o => some o
  | ExecutionResult.Halt _ _ => none

/-- `ExecutionResult::logs`: the logs if execution is successful, or an
empty list otherwise. -/
def ExecutionResult.logs : ExecutionResult → List Log
  | ExecutionResult.Success _ _ _ l _ _ => l
  | _ => []

/-- `ExecutionResult::into_logs`: consuming variant of `logs`. -/
def ExecutionResult.into_logs : ExecutionResult → List Log
  | ExecutionResult.Success _ _ _ l _ _ => l
  | _ => []

/-- `ExecutionResult::gas_used`: the gas used, for every variant. -/
def ExecutionResult.gas_used : ExecutionResult → Nat
  | ExecutionResult.Success _ g _ _ _ _ => g
  | ExecutionResult.Revert _ g _ => g
  | ExecutionResult.Halt _ g => g

/-- `ExecutionResult::gas_refunded`: the gas refunded; zero unless
successful. -/
def ExecutionResult.gas_refunded : ExecutionResult → Nat
  | ExecutionResult.Success _ _ g _ _ _ => g
  | _ => 0

/-- `ExecutionResult::reason`: the carried error for `Revert`/`Halt`; the
source's `panic!` on `Success` is the `Except.error` branch. -/
def ExecutionResult.reason : ExecutionResult → Except ProcessAbort VMError
  | ExecutionResult.Revert e _ _ => Except.ok e
  | ExecutionResult.Halt e _ => Except.ok e
  | _ => Except.error
      (ProcessAbort.abort "ExecutionResult.reason() called on non-revert/halt result")

/-- `AccountStatus` from `vm_result.rs`: a plain (exclusive-variant)
enumeration whose discriminants are distinct bit positions. -/
inductive AccountStatus where
  | Loaded
  | Created
  | SelfDestructed
  | Touched
  | LoadedAsNotExisting
  | Cold
  deriving DecidableEq

/-- The integer discriminant of each `AccountStatus` variant, exactly as
written in the source. -/
def AccountStatus.bits : AccountStatus → Nat
  | AccountStatus.Loaded => 0b00000000
  | AccountStatus.Created => 0b00000001
  | AccountStatus.SelfDestructed => 0b00000010
  | AccountStatus.Touched => 0b00000100
  | AccountStatus.LoadedAsNotExisting => 0b0001000
  | AccountStatus.Cold => 0b0010000

/-- Under the source's bit layout, whether the condition flag `f` is
active in the status value `s`: the bitwise intersection of their
discriminants is non-zero. -/
def AccountStatus.hasFlag (s f : AccountStatus) : Bool :=
  (s.bits &&& f.bits) != 0

/-- `ExitStatusCode` from `vm_result.rs`, discriminants 0..4. -/
inductive ExitStatusCode where
  | Return
  | Stop
  | Revert
  | Error
  | Default
  deriving DecidableEq

/-- `ExitStatusCode::to_u8`: the discriminant as a `u8`. -/
def ExitStatusCode.to_u8 : ExitStatusCode → Fin 256
  | ExitStatusCode.Return => 0
  | ExitStatusCode.Stop => 1
  | ExitStatusCode.Revert => 2
  | ExitStatusCode.Error => 3
  | ExitStatusCode.Default => 4

/-- `ExitStatusCode::from_u8`: guard-matches the value against the
discriminants of `Return`, `Stop`, `Revert`, `Error`, falling through to
`Default`. -/
def ExitStatusCode.from_u8 (value : Fin 256) : ExitStatusCode :=
  if value = ExitStatusCode.Return.to_u8 then ExitStatusCode.Return
  else if value = ExitStatusCode.Stop.to_u8 then ExitStatusCode.Stop
  else if value = ExitStatusCode.Revert.to_u8 then ExitStatusCode.Revert
  else if value = ExitStatusCode.Error.to_u8 then ExitStatusCode.Error
  else ExitStatusCode.Default

/-- Modelled from the spec: the external canonical RLP codec capability
(`RLPEncode`/`RLPDecode` from `ethereum_rust_core`, outside the provided
sources): `{encode(&T) -> bytes, decode(bytes) -> Result<T>}`. -/
structure RLPCodec (T : Type) where
  encode : T → Bytes
  decode : Bytes → Option T

/-- A lawful codec: decoding a canonical encoding recovers the value
(the spec assumes the supplied RLP implementations are correct). -/
def RLPCodec.Lawful {T : Type} (c : RLPCodec T) : Prop :=
  ∀ x : T, c.decode (c.encode x) = some x

/-- `Rlp<T>` from `rlp.rs`: a byte buffer tagged with a phantom type. -/
structure Rlp (T : Type) where
  bytes : Bytes

/-- `impl From<T> for Rlp<T>`: encode the value into a fresh buffer
(named `fromValue` because `from` is reserved in Lean). -/
def Rlp.fromValue {T : Type} (c : RLPCodec T) (value : T) : Rlp T :=
  ⟨c.encode value⟩

/-- `Rlp::to`: materialize the domain value; the source calls
`T::decode(&self.0).unwrap()`, so a failed decode aborts the process. -/
def Rlp.to {T : Type} (c : RLPCodec T) (r : Rlp T) : Except ProcessAbort T :=
  unwrapResult (c.decode r.bytes)

/-- Error kind of the store-facing `Decodable` operations
(`anyhow::Result`); the only fault raised in this layer is the
slice-to-array size mismatch of `try_into`. -/
inductive StoreDecodeError where
  | sizeMismatch
  deriving DecidableEq

/-- `impl Decodable for Rlp<T>`: a pure wrap of the bytes, always `Ok`. -/
def Rlp.decode {T : Type} (b : Bytes) : Except StoreDecodeError (Rlp T) :=
  Except.ok ⟨b⟩

/-- `impl Encodable for Rlp<T>`: consumes the wrapper, returns the raw
buffer unchanged. -/
def Rlp.encode {T : Type} (r : Rlp T) : Bytes :=
  r.bytes

/-- `AccountStorageKeyRLP` from `rlp.rs`: wraps exactly 32 bytes
(`[u8; 32]`), carried as a list with its length invariant. -/
structure AccountStorageKeyRLP where
  word : Bytes
  word_len : word.length = 32

/-- `AccountStorageValueRLP` from `rlp.rs`: wraps exactly 32 bytes. -/
structure AccountStorageValueRLP where
  word : Bytes
  word_len : word.length = 32

/-- `impl Encodable for AccountStorageKeyRLP`: the stored array,
unchanged. -/
def AccountStorageKeyRLP.encode (k : AccountStorageKeyRLP) : Bytes :=
  k.word

/-- `impl Decodable for AccountStorageKeyRLP`: `b.try_into()?` — succeeds
exactly on 32-byte input, propagating the size mismatch otherwise. -/
def AccountStorageKeyRLP.decode (b : Bytes) :
    Except StoreDecodeError AccountStorageKeyRLP :=
  if h : b.length = 32 then Except.ok ⟨b, h⟩
  else Except.error StoreDecodeError.sizeMismatch

/-- `impl Encodable for AccountStorageValueRLP`: the stored array,
unchanged. -/
def AccountStorageValueRLP.encode (v : AccountStorageValueRLP) : Bytes :=
  v.word

/-- `impl Decodable for AccountStorageValueRLP`: `b.try_into()?`. -/
def AccountStorageValueRLP.decode (b : Bytes) :
    Except StoreDecodeError AccountStorageValueRLP :=
  if h : b.length = 32 then Except.ok ⟨b, h⟩
  else Except.error StoreDecodeError.sizeMismatch

/-- A small concrete lawful codec used to run the adapter on explicit
inputs: booleans encoded as a single byte, with every other buffer
malformed. -/
def boolCodec : RLPCodec Bool where
  encode b := if b then [1] else [0]
  decode b := if b = [0] then some false else if b = [1] then some true else none

/-- C1: round-trip law for the typed codec adapter — for every type `T`
with a lawful RLP codec and every value `x`, wrapping via `from`,
passing through the store-facing `encode` and `decode`, and
materializing via `to` recovers `x` (in particular neither store-facing
step nor the decode aborts). -/
theorem rlp_roundtrip {T : Type} (c : RLPCodec T) (hc : c.Lawful) (x : T) :
    Except.map (Rlp.to c) (Rlp.decode (Rlp.encode (Rlp.fromValue c x)))
      = Except.ok (Except.ok x) := by
  simp [Rlp.decode, Rlp.encode, Rlp.fromValue, Rlp.to, Except.map,
    unwrapResult, hc x]

/-- Witness for C1: the round trip evaluated on the concrete codec
`boolCodec` at `true`. -/
theorem rlp_roundtrip_witness :
    Except.map (Rlp.to boolCodec)
        (Rlp.decode (Rlp.encode (Rlp.fromValue boolCodec true)))
      = Except.ok (Except.ok true) :=
  rlp_roundtrip boolCodec (by intro x; cases x <;> rfl) true

/-- C2 (code bug): on malformed bytes the source's `Rlp::to` calls
`unwrap` on a failed decode, terminating the process instead of
returning a decode error to the caller — here, the buffer `[2]` is
malformed for `boolCodec` and `to` lands in the abort branch. -/
theorem rlp_to_aborts_on_malformed :
    Rlp.to boolCodec ⟨[2]⟩
      = Except.error (ProcessAbort.abort "called unwrap on a failed decode") := by
  rfl

/-- C3: fixed-width law for the storage-slot adapters — decode fails
with a propagated size-mismatch error exactly when the input length is
not 32, succeeds wrapping exactly the input bytes when it is 32, and
encode returns the stored 32-byte word unchanged. -/
theorem storage_slot_fixed_width (b : Bytes) :
    (b.length ≠ 32 →
      AccountStorageKeyRLP.decode b = Except.error StoreDecodeError.sizeMismatch ∧
      AccountStorageValueRLP.decode b = Except.error StoreDecodeError.sizeMismatch) ∧
    (∀ h : b.length = 32,
      AccountStorageKeyRLP.decode b = Except.ok ⟨b, h⟩ ∧
      AccountStorageValueRLP.decode b = Except.ok ⟨b, h⟩) ∧
    (∀ k : AccountStorageKeyRLP, k.encode = k.word) ∧
    (∀ v : AccountStorageValueRLP, v.encode = v.word) := by
  refine ⟨fun hne => ?_, fun h => ?_, fun k => rfl, fun v => rfl⟩ <;>
    simp [AccountStorageKeyRLP.decode, AccountStorageValueRLP.decode, *]

/-- Witness for C3: a 31-byte buffer is rejected with the size-mismatch
error and a 32-byte buffer decodes to exactly its bytes. -/
theorem storage_slot_fixed_width_witness :
    AccountStorageValueRLP.decode (List.replicate 31 (0 : Byte))
      = Except.error StoreDecodeError.sizeMismatch ∧
    AccountStorageKeyRLP.decode (List.replicate 32 (0 : Byte))
      = Except.ok ⟨List.replicate 32 (0 : Byte), by simp⟩ :=
  ⟨((storage_slot_fixed_width _).1 (by simp)).2,
   ((storage_slot_fixed_width _).2.1 (by simp)).1⟩

/-- C4: for every `ExecutionResult`, exactly one of `is_success`,
`is_revert`, `is_halt` is true. -/
theorem result_classification_exclusive (r : ExecutionResult) :
    r.is_success.toNat + r.is_revert.toNat + r.is_halt.toNat = 1 := by
  cases r <;> rfl

/-- C5: `output()` is `None` for `Halt`, `None` whenever the underlying
payload is empty (for `Success` and `Revert`), and otherwise the
non-empty payload itself. -/
theorem output_presence (r : ExecutionResult) :
    (r.is_halt = true → r.output = none) ∧
    (∀ reason g gr logs o rd, r = ExecutionResult.Success reason g gr logs o rd →
      r.output = if o.data.isEmpty then none else some o.data) ∧
    (∀ reason g o, r = ExecutionResult.Revert reason g o →
      r.output = if o.isEmpty then none else some o) := by
  refine ⟨fun hh => ?_, fun reason g gr logs o rd hr => ?_, fun reason g o hr => ?_⟩
  · cases r <;> simp_all [ExecutionResult.is_halt, ExecutionResult.output]
  · subst hr; rfl
  · subst hr; rfl

/-- Witness for C5: a halt, a success with empty call output, and a
revert with a one-byte output, evaluated concretely. -/
theorem output_presence_witness :
    (ExecutionResult.Halt VMError.OutOfGas 100).output = none ∧
    (ExecutionResult.Success SuccessReason.Stop 21000 0 [] (Output.Call []) []).output
      = none ∧
    (ExecutionResult.Revert VMError.OutOfGas 5 [1]).output = some [1] := by
  refine ⟨(output_presence _).1 rfl, ?_, ?_⟩
  · have h := (output_presence _).2.1 SuccessReason.Stop 21000 0 [] (Output.Call []) [] rfl
    simpa using h
  · have h := (output_presence _).2.2 VMError.OutOfGas 5 [1] rfl
    simpa using h

/-- C6 counterexample: for a `Success` carrying an empty output payload,
`output()` is `None` (the emptiness filter applies) but `into_output()`
is `Some(empty bytes)` — so `into_output` is not `Some`/`None` exactly
where `output` is. -/
theorem into_output_mismatch_cex :
    (ExecutionResult.Success SuccessReason.Stop 21000 0 [] (Output.Call []) []).output
      = none ∧
    (ExecutionResult.Success SuccessReason.Stop 21000 0 [] (Output.Call []) []).into_output
      = some [] ∧
    ¬((ExecutionResult.Success SuccessReason.Stop 21000 0 [] (Output.Call []) []).into_output
        = none ↔
      (ExecutionResult.Success SuccessReason.Stop 21000 0 [] (Output.Call []) []).output
        = none) := by
  refine ⟨rfl, rfl, ?_⟩
  intro h
  exact Option.some_ne_none _ (h.mpr rfl)

/-- C6 amended: `into_output` consumes the result and returns the raw
payload with no emptiness filter — for every `Success` it is `Some` of
the output's payload and for every `Revert` it is `Some` of the output
bytes, in both cases even when that payload is empty; it is `None`
exactly for `Halt`; consequently it agrees with `output()` whenever
`output()` is `Some`. -/
theorem into_output_spec (r : ExecutionResult) :
    (∀ reason g gr logs o rd, r = ExecutionResult.Success reason g gr logs o rd →
      r.into_output = some o.into_data) ∧
    (∀ reason g o, r = ExecutionResult.Revert reason g o →
      r.into_output = some o) ∧
    (r.into_output = none ↔ r.is_halt = true) ∧
    (∀ b, r.output = some b → r.into_output = some b) := by
  refine ⟨fun reason g gr logs o rd hr => by subst hr; rfl,
          fun reason g o hr => by subst hr; rfl, ?_, ?_⟩
  · cases r <;> simp [ExecutionResult.into_output, ExecutionResult.is_halt]
  · intro b hb
    cases r with
    | Success reason g gr logs o rd =>
        simp only [ExecutionResult.output, Option.bind] at hb
        split at hb
        · exact absurd hb (by simp)
        · cases o <;> simp_all [ExecutionResult.into_output, Output.data, Output.into_data]
    | Revert reason g o =>
        simp only [ExecutionResult.output, Option.bind] at hb
        split at hb
        · exact absurd hb (by simp)
        · simp_all [ExecutionResult.into_output]
    | Halt reason g =>
        simp [ExecutionResult.output] at hb

/-- Witness for C6's amended theorem: a success with an empty call
payload and a revert with an empty payload both yield `Some(empty)`, and
a revert with a one-byte payload agrees with `output()`. -/
theorem into_output_spec_witness :
    (ExecutionResult.Success SuccessReason.Stop 21000 0 [] (Output.Call []) []).into_output
      = some [] ∧
    (ExecutionResult.Revert VMError.OutOfGas 5 []).into_output = some [] ∧
    (ExecutionResult.Revert VMError.OutOfGas 5 [7]).into_output = some [7] :=
  ⟨(into_output_spec _).1 SuccessReason.Stop 21000 0 [] (Output.Call []) [] rfl,
   (into_output_spec _).2.1 VMError.OutOfGas 5 [] rfl,
   (into_output_spec _).2.2.2 [7] rfl⟩

/-- C7: `reason()` returns the carried error for every `Revert` and
`Halt`, and on a `Success` it terminates the process with an assertion
failure (the `panic!` branch) rather than returning a value. -/
theorem reason_spec (r : ExecutionResult) :
    (∀ e g o, r = ExecutionResult.Revert e g o → r.reason = Except.ok e) ∧
    (∀ e g, r = ExecutionResult.Halt e g → r.reason = Except.ok e) ∧
    (r.is_success = true →
      r.reason = Except.error
        (ProcessAbort.abort
          "ExecutionResult.reason() called on non-revert/halt result")) := by
  refine ⟨fun e g o hr => by subst hr; rfl, fun e g hr => by subst hr; rfl, fun hs => ?_⟩
  cases r <;> simp_all [ExecutionResult.is_success, ExecutionResult.reason]

/-- Witness for C7: `reason` evaluated on a concrete halt and a concrete
success. -/
theorem reason_spec_witness :
    (ExecutionResult.Halt VMError.OutOfGas 9).reason = Except.ok VMError.OutOfGas ∧
    (ExecutionResult.Success SuccessReason.Stop 1 0 [] (Output.Call []) []).reason
      = Except.error
          (ProcessAbort.abort
            "ExecutionResult.reason() called on non-revert/halt result") :=
  ⟨(reason_spec _).2.1 VMError.OutOfGas 9 rfl, (reason_spec _).2.2 rfl⟩

/-- C8: for every `Revert`/`Halt` result `logs()` is empty and
`gas_refunded()` is zero, and `gas_used()` returns the stored field for
every variant. -/
theorem nonsuccess_fields (r : ExecutionResult) :
    (r.is_revert = true ∨ r.is_halt = true →
      r.logs = [] ∧ r.gas_refunded = 0) ∧
    (∀ reason g gr logs o rd,
      (ExecutionResult.Success reason g gr logs o rd).gas_used = g) ∧
    (∀ reason g o, (ExecutionResult.Revert reason g o).gas_used = g) ∧
    (∀ reason g, (ExecutionResult.Halt reason g).gas_used = g) := by
  refine ⟨fun hr => ?_, fun _ _ _ _ _ _ => rfl, fun _ _ _ => rfl, fun _ _ => rfl⟩
  cases r <;>
    simp_all [ExecutionResult.is_revert, ExecutionResult.is_halt,
      ExecutionResult.logs, ExecutionResult.gas_refunded]

/-- Witness for C8: a concrete revert has empty logs and zero refund. -/
theorem nonsuccess_fields_witness :
    (ExecutionResult.Revert VMError.StackUnderflow 3 [1]).logs = [] ∧
    (ExecutionResult.Revert VMError.StackUnderflow 3 [1]).gas_refunded = 0 :=
  (nonsuccess_fields _).1 (Or.inl rfl)

/-- C9 (code bug): `AccountStatus` is an exclusive-variant enumeration,
so despite the power-of-two bit layout no value has both the `Created`
and `Touched` flags active at once — the intended composability fails on
every one of the six representable values. -/
theorem accountStatus_no_combined_flags :
    ∀ s : AccountStatus,
      (s.hasFlag AccountStatus.Created && s.hasFlag AccountStatus.Touched) = false := by
  intro s
  cases s <;> rfl

/-- C10: `ExitStatusCode` conversion round-trip — `from_u8 ∘ to_u8` is
the identity on every variant, and every byte other than the
discriminants of `Return`, `Stop`, `Revert`, `Error` maps to `Default`. -/
theorem exitStatusCode_roundtrip :
    (∀ x : ExitStatusCode, ExitStatusCode.from_u8 x.to_u8 = x) ∧
    (∀ b : Fin 256,
      b ≠ ExitStatusCode.Return.to_u8 → b ≠ ExitStatusCode.Stop.to_u8 →
      b ≠ ExitStatusCode.Revert.to_u8 → b ≠ ExitStatusCode.Error.to_u8 →
      ExitStatusCode.from_u8 b = ExitStatusCode.Default) := by
  constructor
  · intro x
    cases x <;> rfl
  · intro b h0 h1 h2 h3
    simp [ExitStatusCode.from_u8, h0, h1, h2, h3]

/-- Witness for C10: byte 7 is none of the four named discriminants and
maps to `Default`. -/
theorem exitStatusCode_roundtrip_witness :
    ExitStatusCode.from_u8 7 = ExitStatusCode.Default :=
  exitStatusCode_roundtrip.2 7 (by decide) (by decide) (by decide) (by decide)

end EthRust
